import Mathlib

/-
Verification of the `handlers` package (olihawkins/handlers) against its
specification.  The package provides three HTTP responders: an
`ErrorHandler` and a `NotFoundHandler` that render custom 500/404 pages
through a buffered template-rendering protocol, and a `FileHandler` that
serves static files, redirects directory requests, and delegates missing
resources to a configured not-found handler.

Shallow embedding: an HTTP response transport (`http.ResponseWriter`) is
modelled as the list of write events performed on it; a compiled
`html/template` is modelled as a function from its data value to a render
result (the rendered bytes, or an execution error message); the filesystem
(`os.Stat` / file contents) is an explicit parameter; each handler method
is a pure function from its inputs to the list of write events it performs.
The external `net/http` primitives used by the package (`http.Error`,
`http.Redirect`, `http.ServeFile`) are modelled from their documented
behaviour for GET requests.
-/

set_option linter.dupNamespace false
set_option linter.unusedVariables false

/-- A single write performed on the HTTP response transport: setting a
header field, committing a status line, or writing body bytes. -/
inductive WriteEvent where
  | setHeader (name value : String)
  | header (status : Nat)
  | body (content : String)
deriving DecidableEq, Repr

/-- A response is the ordered list of writes performed on the transport. -/
abbrev Response := List WriteEvent

/-- The status code committed by a response: the first `header` event. -/
def responseStatus (resp : Response) : Option Nat :=
  resp.findSome? fun e =>
    match e with
    | .header s => some s
    | _ => none

/-- The value of the first header field with the given name set on a response. -/
def responseHeaderValue (name : String) (resp : Response) : Option String :=
  resp.findSome? fun e =>
    match e with
    | .setHeader n v => if n = name then some v else none
    | _ => none

/-- All body bytes written by a response, in order. -/
def responseBody (resp : Response) : String :=
  String.join (resp.filterMap fun e =>
    match e with
    | .body s => some s
    | _ => none)

/-- Outcome of executing a template against a data value:
the rendered bytes, or the execution error's message. -/
inductive RenderResult where
  | ok (output : String)
  | error (message : String)
deriving DecidableEq, Repr

/-- A compiled `html/template`: an immutable rendering function from one
data value to bytes, which may fail with an error. -/
structure Template (α : Type) where
  render : α → RenderResult

/-- An HTTP request, identified by its URL path (`r.URL.Path`).  The
handlers under verification consult nothing else of the request; the
method is taken to be GET as in the package's tests. -/
structure Request where
  path : String
deriving DecidableEq, Repr

/-- `strings.HasSuffix`, computed on the character data so that it
evaluates inside the kernel. -/
def goHasSuffix (s suf : String) : Bool :=
  suf.data.isSuffixOf s.data

/-- `http.Error(w, msg, code)` from net/http: sets plain-text content-type
headers, commits the status code, and writes the message and a newline. -/
def httpError (msg : String) (code : Nat) : Response :=
  [.setHeader "Content-Type" "text/plain; charset=utf-8",
   .setHeader "X-Content-Type-Options" "nosniff",
   .header code,
   .body (msg ++ "\n")]

/-- `http.StatusText` for the codes used by this package. -/
def statusText (code : Nat) : String :=
  if code = 301 then "Moved Permanently"
  else if code = 302 then "Found"
  else if code = 404 then "Not Found"
  else if code = 500 then "Internal Server Error"
  else ""

/-- HTML-escaping of one character, as done by net/http's htmlEscape
replacer. -/
def htmlEscapeChar (c : Char) : String :=
  if c = '&' then "&amp;"
  else if c = '<' then "&lt;"
  else if c = '>' then "&gt;"
  else if c = '"' then "&#34;"
  else if c = Char.ofNat 39 then "&#39;"
  else String.singleton c

/-- net/http's htmlEscape, applied characterwise. -/
def htmlEscape (s : String) : String :=
  String.join (s.data.map htmlEscapeChar)

/-- `http.Redirect(w, r, url, code)` from net/http, for a GET request with
no content-type already set: sets the Location header, commits the status
code, and writes a small HTML body linking to the target. -/
def httpRedirect (url : String) (code : Nat) : Response :=
  [.setHeader "Location" url,
   .setHeader "Content-Type" "text/html; charset=utf-8",
   .header code,
   .body ("<a href=\"" ++ htmlEscape url ++ "\">" ++ statusText code ++ "</a>.\n")]

/-- Splits a character list into the maximal runs separated by slash
runes ('/' or '\\'), as net/http's containsDotDot does via
`strings.FieldsFunc` (empty runs are irrelevant: they never equal ".."). -/
def fieldsBySlash : List Char → List Char → List (List Char)
  | [], acc => [acc.reverse]
  | c :: rest, acc =>
    if c = '/' ∨ c = '\\' then acc.reverse :: fieldsBySlash rest []
    else fieldsBySlash rest (c :: acc)

/-- net/http's containsDotDot: does any slash-separated path element of
the string equal ".."? -/
def containsDotDot (p : String) : Bool :=
  (fieldsBySlash p.data []).any fun f => f = ['.', '.']

/-- net/http's localRedirect: sets the Location header to the given path
and commits 301 (Moved Permanently), with no body. -/
def localRedirect (newPath : String) : Response :=
  [.setHeader "Location" newPath, .header 301]

/-- Error cause of a failed `os.Stat` call.  The package never inspects
the cause, only whether the call failed; the causes are distinguished here
precisely so that this can be proved. -/
inductive StatError where
  | notExist
  | permission
  | invalidPath
deriving DecidableEq, Repr

/-- Classification of a stat'ed filesystem object, mirroring Go's
`FileMode` predicates: `IsDir`, `IsRegular`, or neither (special files
such as devices, sockets and pipes). `os.Stat` follows symlinks, so a
symlink-as-such never appears. -/
inductive FileMode where
  | dir
  | regular
  | other
deriving DecidableEq, Repr

/-- Outcome of `os.Stat`: the file's mode, or an error. -/
inductive StatResult where
  | ok (mode : FileMode)
  | error (e : StatError)
deriving DecidableEq, Repr

/-- The filesystem as seen by the handler: `os.Stat` metadata and the
byte contents streamed for regular files. -/
structure FileSystem where
  stat : String → StatResult
  contents : String → String

/-- `http.ServeFile(w, r, name)` from net/http, modelled for a GET request
whose `name` has been stat-confirmed as a regular file (the only way the
package calls it): requests whose URL path contains a ".." element are
rejected with a plain 400; requests whose URL path ends in "/index.html"
are canonicalized with a local 301 redirect to "./"; otherwise the file's
bytes are served with status 200. -/
def httpServeFile (fs : FileSystem) (r : Request) (name : String) : Response :=
  if containsDotDot r.path then
    httpError "invalid URL path" 400
  else if goHasSuffix r.path "/index.html" then
    localRedirect "./"
  else
    [.header 200, .body (fs.contents name)]

/-- ErrorMessage holds the message passed to the error template
(handlers.go). -/
structure ErrorMessage where
  ErrorMessage : String
deriving DecidableEq, Repr

/-- ErrorHandler serves error messages with the given template
(handlers.go). -/
structure ErrorHandler where
  template : Template ErrorMessage
  defaultMessage : String
  displayErrors : Bool

/-- The data value `ServeError` substitutes into the error template: the
caller's message when `displayErrors` is true, else the default message
(handlers.go, ServeError). -/
def ErrorHandler.errorData (h : ErrorHandler) (message : String) : ErrorMessage :=
  if h.displayErrors then ⟨message⟩ else ⟨h.defaultMessage⟩

/-- `ErrorHandler.ServeError` (handlers.go, buffered version): choose the
message by the display policy, execute the template into a buffer; on
failure fall back to `http.Error` with the render error and 500; on
success commit status 500 and write the buffer. -/
def ErrorHandler.ServeError (h : ErrorHandler) (message : String) : Response :=
  match h.template.render (h.errorData message) with
  | .error err => httpError err 500
  | .ok buffer => [.header 500, .body buffer]

/-- `ErrorHandler.AlwaysServeError` (handlers.go): render the given
message unconditionally, with the same buffered protocol. -/
def ErrorHandler.AlwaysServeError (h : ErrorHandler) (message : String) : Response :=
  match h.template.render ⟨message⟩ with
  | .error err => httpError err 500
  | .ok buffer => [.header 500, .body buffer]

/-- `ErrorHandler.ServeHTTP` (handlers.go): render the default message,
with the same buffered protocol. -/
def ErrorHandler.ServeHTTP (h : ErrorHandler) (r : Request) : Response :=
  match h.template.render ⟨h.defaultMessage⟩ with
  | .error err => httpError err 500
  | .ok buffer => [.header 500, .body buffer]

/-- NotFoundData holds the path passed to the not-found template
(handlers.go). -/
structure NotFoundData where
  Path : String
deriving DecidableEq, Repr

/-- NotFoundHandler serves a 404 with the given template (handlers.go). -/
structure NotFoundHandler where
  template : Template NotFoundData

/-- `NotFoundHandler.ServeHTTP` (handlers.go, buffered version): execute
the template on the request's path into a buffer; on failure fall back to
`http.Error` with the render error and 500; on success commit status 404
and write the buffer. -/
def NotFoundHandler.ServeHTTP (h : NotFoundHandler) (r : Request) : Response :=
  match h.template.render ⟨r.path⟩ with
  | .error err => httpError err 500
  | .ok buffer => [.header 404, .body buffer]

/-- FileHandler serves files requested under the given url path from the
given directory (handlers.go).  The not-found handler is any
`http.Handler`, modelled as its response function. -/
structure FileHandler where
  urlPath : String
  directory : String
  notFoundHandler : Request → Response

/-- `filepath.FromSlash` on a slash-separated platform (the separator is
already '/'): the identity. -/
def filepathFromSlash (p : String) : String := p

/-- The target file path computed by `FileHandler.ServeHTTP`
(handlers.go): drop the first `len(urlPath) - 1` characters of the
request path, then append "index.html" when the request path ends in a
slash, and prepend the base directory. -/
def FileHandler.resolveTarget (h : FileHandler) (path : String) : String :=
  let indexPage : String := "index.html"
  let requestPath : String := path.drop (h.urlPath.length - 1)
  if goHasSuffix path "/" then
    h.directory ++ filepathFromSlash (requestPath ++ indexPage)
  else
    h.directory ++ filepathFromSlash requestPath

/-- `FileHandler.ServeHTTP` (handlers.go): stat the resolved target; on
any stat error delegate to the not-found handler with the original
request; on a directory redirect (302) to the path with a trailing slash;
on a regular file serve it with `http.ServeFile`; any other mode falls
through Go's switch and writes nothing. -/
def FileHandler.ServeHTTP (h : FileHandler) (fs : FileSystem) (r : Request) : Response :=
  let filePath : String := h.resolveTarget r.path
  match fs.stat filePath with
  | .error _ => h.notFoundHandler r
  | .ok mode =>
    match mode with
    | .dir => httpRedirect (r.path ++ "/") 302
    | .regular => httpServeFile fs r filePath
    | .other => []

/-- Modelled from the spec (section 4.4, steps 1-2), for comparison with
the source-derived `FileHandler.resolveTarget`: `relative` is the request
path with its first `len(urlPrefix) - 1` characters removed; the target
is `baseDirectory + relative + "index.html"` when the request path ends
in "/", else `baseDirectory + relative`. -/
def specResolvedTarget (mountPath baseDirectory path : String) : String :=
  let relative : String := path.drop (mountPath.length - 1)
  if goHasSuffix path "/" then
    baseDirectory ++ relative ++ "index.html"
  else
    baseDirectory ++ relative

/-- `sub` occurs as a contiguous substring of `s`. -/
def strContains (s sub : String) : Prop :=
  sub.data <:+: s.data

instance (s sub : String) : Decidable (strContains s sub) :=
  inferInstanceAs (Decidable (sub.data <:+: s.data))

/-- The error template of the package's tests: renders
"Error: {{.ErrorMessage}}". -/
def sampleErrorTemplate : Template ErrorMessage :=
  ⟨fun d => .ok ("Error: " ++ d.ErrorMessage)⟩

/-- An error template of the single-substitution-point form required by
the spec's template contract: a fixed frame around the message. -/
def framedErrorTemplate : Template ErrorMessage :=
  ⟨fun d => .ok ("Error: " ++ d.ErrorMessage ++ "!")⟩

/-- The not-found template of the package's tests: renders
"Not Found: {{.Path}}". -/
def sampleNotFoundTemplate : Template NotFoundData :=
  ⟨fun d => .ok ("Not Found: " ++ d.Path)⟩

/-- An error template whose execution always fails. -/
def failingErrorTemplate : Template ErrorMessage :=
  ⟨fun _ => .error "template: boom"⟩

/-- A not-found template whose execution always fails. -/
def failingNotFoundTemplate : Template NotFoundData :=
  ⟨fun _ => .error "template: boom"⟩

/-- The not-found responder used by the test FileHandler, as a response
function. -/
def sampleNotFoundResponder : Request → Response := fun r =>
  (NotFoundHandler.mk sampleNotFoundTemplate).ServeHTTP r

/-- The FileHandler of the package's tests: mounted at "/test/" over the
directory "./test". -/
def sampleFileHandler : FileHandler :=
  ⟨"/test/", "./test", sampleNotFoundResponder⟩

/-- An ErrorHandler in production (message-suppressing) mode over the
framed template. -/
def productionErrorHandler : ErrorHandler :=
  ⟨framedErrorTemplate, "Default error message", false⟩

/-- A filesystem shaped like the package's test directory. -/
def sampleFS : FileSystem where
  stat p :=
    if p = "./test" ∨ p = "./test/sub1" ∨ p = "./test/sub2" then .ok .dir
    else if p = "./test/index.html" ∨ p = "./test/sub1/index.html" then .ok .regular
    else if p = "./test/sub2/not-index.html" then .ok .regular
    else .error .notExist
  contents p :=
    if p = "./test/index.html" then "Test"
    else if p = "./test/sub1/index.html" then "Sub1"
    else if p = "./test/sub2/not-index.html" then "Sub2"
    else ""

/-- A filesystem on which ./test/special stats successfully as a special
file: neither a directory nor a regular file. -/
def specialFS : FileSystem where
  stat p := if p = "./test/special" then .ok .other else .error .notExist
  contents _ := ""

/-- A filesystem whose stat calls all fail with permission denied. -/
def permissionFS : FileSystem where
  stat _ := .error .permission
  contents _ := ""

/-- String concatenation is associative. -/
theorem string_append_assoc (a b c : String) : a ++ b ++ c = a ++ (b ++ c) := by
  apply String.ext
  simp [String.data_append]

/-- The body written by `http.Error` is the message followed by a newline. -/
theorem responseBody_httpError (msg : String) (code : Nat) :
    responseBody (httpError msg code) = msg ++ "\n" := rfl

/-- C1: for every handler configuration and data value, if template
rendering succeeds then the responder's write to the transport consists of
exactly the fixed status code (500 for ErrorHandler's ServeError,
AlwaysServeError and ServeHTTP; 404 for NotFoundHandler's ServeHTTP) as
the status line followed by the entire rendered buffer as the body, and no
bytes are written before rendering has succeeded: the render-then-commit
discipline. -/
theorem buffered_render_then_commit
    (eh : ErrorHandler) (nfh : NotFoundHandler) (r : Request) (message : String)
    (out₁ out₂ out₃ out₄ : String)
    (h₁ : eh.template.render (eh.errorData message) = .ok out₁)
    (h₂ : eh.template.render ⟨message⟩ = .ok out₂)
    (h₃ : eh.template.render ⟨eh.defaultMessage⟩ = .ok out₃)
    (h₄ : nfh.template.render ⟨r.path⟩ = .ok out₄) :
    eh.ServeError message = [.header 500, .body out₁] ∧
    eh.AlwaysServeError message = [.header 500, .body out₂] ∧
    eh.ServeHTTP r = [.header 500, .body out₃] ∧
    nfh.ServeHTTP r = [.header 404, .body out₄] := by
  refine ⟨?_, ?_, ?_, ?_⟩ <;>
    simp [ErrorHandler.ServeError, ErrorHandler.AlwaysServeError,
      ErrorHandler.ServeHTTP, NotFoundHandler.ServeHTTP, h₁, h₂, h₃, h₄]

/-- Witness for C1 at the test fixtures: the exact event lists committed
by each of the four methods. -/
theorem buffered_render_then_commit_witness :
    (ErrorHandler.mk sampleErrorTemplate "Default error message" true).ServeError
        "Test ServeError" = [.header 500, .body "Error: Test ServeError"] ∧
    (ErrorHandler.mk sampleErrorTemplate "Default error message" true).AlwaysServeError
        "Test ServeError" = [.header 500, .body "Error: Test ServeError"] ∧
    (ErrorHandler.mk sampleErrorTemplate "Default error message" true).ServeHTTP
        ⟨"/path"⟩ = [.header 500, .body "Error: Default error message"] ∧
    (NotFoundHandler.mk sampleNotFoundTemplate).ServeHTTP ⟨"/path"⟩ =
        [.header 404, .body "Not Found: /path"] :=
  buffered_render_then_commit _ _ _ _ _ _ _ _ rfl rfl rfl rfl

/-- C2: whenever the stat of the resolved target fails — for any cause —
FileHandler.ServeHTTP delegates to the configured not-found handler on the
original, unmodified request, so its response is identical to invoking
that handler directly on the request path; the response does not depend on
the cause of the stat failure. -/
theorem fileHandler_stat_failure_delegates
    (h : FileHandler) (fs : FileSystem) (r : Request) (e : StatError)
    (hstat : fs.stat (h.resolveTarget r.path) = .error e) :
    h.ServeHTTP fs r = h.notFoundHandler r := by
  simp [FileHandler.ServeHTTP, hstat]

/-- Witness for C2: a permission-denied stat yields exactly the not-found
responder's response on the original path. -/
theorem fileHandler_stat_failure_delegates_witness :
    sampleFileHandler.ServeHTTP permissionFS ⟨"/test/nofile"⟩ =
      sampleFileHandler.notFoundHandler ⟨"/test/nofile"⟩ :=
  fileHandler_stat_failure_delegates _ _ _ .permission rfl

/-- C3: whenever the resolved target stats as a directory,
FileHandler.ServeHTTP responds with a 302 (Found) redirect whose Location
header is the request path with a trailing slash appended. -/
theorem fileHandler_directory_redirect
    (h : FileHandler) (fs : FileSystem) (r : Request)
    (hstat : fs.stat (h.resolveTarget r.path) = .ok .dir) :
    h.ServeHTTP fs r = httpRedirect (r.path ++ "/") 302 ∧
    responseStatus (h.ServeHTTP fs r) = some 302 ∧
    responseHeaderValue "Location" (h.ServeHTTP fs r) = some (r.path ++ "/") := by
  have hmain : h.ServeHTTP fs r = httpRedirect (r.path ++ "/") 302 := by
    simp [FileHandler.ServeHTTP, hstat]
  exact ⟨hmain, by rw [hmain]; rfl, by rw [hmain]; rfl⟩

/-- Witness for C3 at the mount root requested without its trailing
slash: prefix "/test/", request "/test", redirected to "/test/". -/
theorem fileHandler_directory_redirect_witness :
    sampleFileHandler.ServeHTTP sampleFS ⟨"/test"⟩ =
      httpRedirect ("/test" ++ "/") 302 ∧
    responseStatus (sampleFileHandler.ServeHTTP sampleFS ⟨"/test"⟩) = some 302 ∧
    responseHeaderValue "Location" (sampleFileHandler.ServeHTTP sampleFS ⟨"/test"⟩) =
      some ("/test" ++ "/") :=
  fileHandler_directory_redirect _ _ _ (by decide)

/-- C4 counterexample: with the test fixtures (prefix "/test/", directory
"./test" in which index.html exists as a regular file), the request
"/test/index.html" is not served with 200 and the file's bytes; the
underlying http.ServeFile canonicalizes it to a 301 (Moved Permanently)
redirect with Location "./" — exactly what the package's own test expects. -/
theorem index_literal_request_redirected :
    sampleFileHandler.ServeHTTP sampleFS ⟨"/test/index.html"⟩ =
      [.setHeader "Location" "./", .header 301] ∧
    responseStatus (sampleFileHandler.ServeHTTP sampleFS ⟨"/test/index.html"⟩) =
      some 301 ∧
    responseStatus (sampleFileHandler.ServeHTTP sampleFS ⟨"/test/index.html"⟩) ≠
      some 200 ∧
    responseBody (sampleFileHandler.ServeHTTP sampleFS ⟨"/test/index.html"⟩) ≠
      "Test" := by
  decide

/-- C4 amended: a request for the index file by its literal name, whose
resolved target stats as a regular file, is not served directly; the
underlying file-serving primitive redirects it with status 301 (Moved
Permanently) and Location "./". -/
theorem index_literal_request_moved_permanently
    (h : FileHandler) (fs : FileSystem) (r : Request)
    (hdot : containsDotDot r.path = false)
    (hidx : goHasSuffix r.path "/index.html" = true)
    (hstat : fs.stat (h.resolveTarget r.path) = .ok .regular) :
    h.ServeHTTP fs r = localRedirect "./" ∧
    responseStatus (h.ServeHTTP fs r) = some 301 ∧
    responseHeaderValue "Location" (h.ServeHTTP fs r) = some "./" := by
  have hmain : h.ServeHTTP fs r = localRedirect "./" := by
    simp [FileHandler.ServeHTTP, hstat, httpServeFile, hdot, hidx]
  exact ⟨hmain, by rw [hmain]; rfl, by rw [hmain]; rfl⟩

/-- Witness for the amended C4 at the test fixtures. -/
theorem index_literal_request_moved_permanently_witness :
    sampleFileHandler.ServeHTTP sampleFS ⟨"/test/index.html"⟩ = localRedirect "./" ∧
    responseStatus (sampleFileHandler.ServeHTTP sampleFS ⟨"/test/index.html"⟩) =
      some 301 ∧
    responseHeaderValue "Location"
      (sampleFileHandler.ServeHTTP sampleFS ⟨"/test/index.html"⟩) = some "./" :=
  index_literal_request_moved_permanently _ _ _ (by decide) (by decide) (by decide)

/-- C5: for every request path extending the configured urlPath, the
resolved target is computed exactly as the spec states: the request path
with its first `len(urlPath) - 1` characters removed, prefixed by the
base directory, with "index.html" appended when the request path ends in
a slash; and when the urlPath ends in a slash, the removal preserves a
leading slash on the relative path. -/
theorem fileHandler_target_resolution
    (h : FileHandler) (path : String)
    (hpre : h.urlPath.data <+: path.data) :
    h.resolveTarget path = specResolvedTarget h.urlPath h.directory path ∧
    (['/'] <:+ h.urlPath.data →
      ['/'] <+: (path.drop (h.urlPath.length - 1)).data) := by
  constructor
  · cases hs : goHasSuffix path "/" <;>
      simp [FileHandler.resolveTarget, specResolvedTarget, filepathFromSlash, hs,
        string_append_assoc]
  · intro hsuf
    obtain ⟨t, ht⟩ := hpre
    obtain ⟨s, hs⟩ := hsuf
    have hdrop : (path.drop (h.urlPath.length - 1)).data
        = path.data.drop (h.urlPath.length - 1) := by
      rw [String.drop_eq]
    have hlen : h.urlPath.length - 1 = s.length := by
      show h.urlPath.data.length - 1 = s.length
      rw [← hs]
      simp
    rw [hdrop, hlen, ← ht, ← hs, List.append_assoc, List.drop_left]
    exact ⟨t, rfl⟩

/-- Witness for C5 at the test mount "/test/" and request "/test/sub1". -/
theorem fileHandler_target_resolution_witness :
    sampleFileHandler.resolveTarget "/test/sub1" =
      specResolvedTarget "/test/" "./test" "/test/sub1" ∧
    (['/'] <:+ ("/test/" : String).data →
      ['/'] <+: (("/test/sub1" : String).drop (("/test/" : String).length - 1)).data) :=
  fileHandler_target_resolution sampleFileHandler "/test/sub1" (by decide)

/-- C6: whenever template rendering fails, each responder abandons the
buffer and falls back to http.Error: a 500 response whose plain-text body
contains the render error; none of the buffered template output is
written, and (structurally, each method returning a response rather than
an error) the failure is never propagated to the caller. -/
theorem render_failure_fallback
    (eh : ErrorHandler) (nfh : NotFoundHandler) (r : Request) (message : String)
    (e₁ e₂ e₃ e₄ : String)
    (h₁ : eh.template.render (eh.errorData message) = .error e₁)
    (h₂ : eh.template.render ⟨message⟩ = .error e₂)
    (h₃ : eh.template.render ⟨eh.defaultMessage⟩ = .error e₃)
    (h₄ : nfh.template.render ⟨r.path⟩ = .error e₄) :
    eh.ServeError message = httpError e₁ 500 ∧
    eh.AlwaysServeError message = httpError e₂ 500 ∧
    eh.ServeHTTP r = httpError e₃ 500 ∧
    nfh.ServeHTTP r = httpError e₄ 500 ∧
    responseStatus (eh.ServeError message) = some 500 ∧
    strContains (responseBody (eh.ServeError message)) e₁ := by
  have m₁ : eh.ServeError message = httpError e₁ 500 := by
    simp [ErrorHandler.ServeError, h₁]
  have m₂ : eh.AlwaysServeError message = httpError e₂ 500 := by
    simp [ErrorHandler.AlwaysServeError, h₂]
  have m₃ : eh.ServeHTTP r = httpError e₃ 500 := by
    simp [ErrorHandler.ServeHTTP, h₃]
  have m₄ : nfh.ServeHTTP r = httpError e₄ 500 := by
    simp [NotFoundHandler.ServeHTTP, h₄]
  refine ⟨m₁, m₂, m₃, m₄, by rw [m₁]; rfl, ?_⟩
  rw [m₁, responseBody_httpError]
  exact ⟨[], ['\n'], by simp [String.data_append]⟩

/-- Witness for C6 with templates whose execution always fails. -/
theorem render_failure_fallback_witness :
    (ErrorHandler.mk failingErrorTemplate "Default error message" true).ServeError
        "Test ServeError" = httpError "template: boom" 500 ∧
    (ErrorHandler.mk failingErrorTemplate "Default error message" true).AlwaysServeError
        "Test ServeError" = httpError "template: boom" 500 ∧
    (ErrorHandler.mk failingErrorTemplate "Default error message" true).ServeHTTP
        ⟨"/path"⟩ = httpError "template: boom" 500 ∧
    (NotFoundHandler.mk failingNotFoundTemplate).ServeHTTP ⟨"/path"⟩ =
      httpError "template: boom" 500 ∧
    responseStatus ((ErrorHandler.mk failingErrorTemplate "Default error message"
      true).ServeError "Test ServeError") = some 500 ∧
    strContains (responseBody ((ErrorHandler.mk failingErrorTemplate
      "Default error message" true).ServeError "Test ServeError")) "template: boom" :=
  render_failure_fallback _ _ _ _ _ _ _ _ rfl rfl rfl rfl

/-- C7: for every path p (the original, unmodified request path), when the
configured template renders {Path := p} successfully, NotFoundHandler's
response is exactly status 404 with the rendered output as body. -/
theorem notFoundHandler_renders_path
    (nfh : NotFoundHandler) (p out : String)
    (hok : nfh.template.render ⟨p⟩ = .ok out) :
    nfh.ServeHTTP ⟨p⟩ = [.header 404, .body out] ∧
    responseStatus (nfh.ServeHTTP ⟨p⟩) = some 404 ∧
    responseBody (nfh.ServeHTTP ⟨p⟩) = out := by
  have hmain : nfh.ServeHTTP ⟨p⟩ = [.header 404, .body out] := by
    simp [NotFoundHandler.ServeHTTP, hok]
  exact ⟨hmain, by rw [hmain]; rfl, by rw [hmain]; rfl⟩

/-- Witness for C7 at the empty path and the root path "/". -/
theorem notFoundHandler_renders_path_witness :
    ((NotFoundHandler.mk sampleNotFoundTemplate).ServeHTTP ⟨""⟩ =
        [.header 404, .body "Not Found: "] ∧
      responseStatus ((NotFoundHandler.mk sampleNotFoundTemplate).ServeHTTP ⟨""⟩) =
        some 404 ∧
      responseBody ((NotFoundHandler.mk sampleNotFoundTemplate).ServeHTTP ⟨""⟩) =
        "Not Found: ") ∧
    ((NotFoundHandler.mk sampleNotFoundTemplate).ServeHTTP ⟨"/"⟩ =
        [.header 404, .body "Not Found: /"] ∧
      responseStatus ((NotFoundHandler.mk sampleNotFoundTemplate).ServeHTTP ⟨"/"⟩) =
        some 404 ∧
      responseBody ((NotFoundHandler.mk sampleNotFoundTemplate).ServeHTTP ⟨"/"⟩) =
        "Not Found: /") :=
  ⟨notFoundHandler_renders_path _ "" "Not Found: " rfl,
   notFoundHandler_renders_path _ "/" "Not Found: /" rfl⟩

/-- C8: over any template of the spec's single-substitution-point form
(a fixed frame around the message) in which the caller's message does not
already occur in the framed default message, ServeError's body contains
the caller's message iff displayErrors is true, and otherwise is the framed
default message; AlwaysServeError's body contains the caller's message
regardless of the flag; both respond with status 500. -/
theorem errorHandler_display_policy
    (eh : ErrorHandler) (message pre post : String)
    (hsub : ∀ d : ErrorMessage,
      eh.template.render d = .ok (pre ++ d.ErrorMessage ++ post))
    (hnot : ¬ strContains (pre ++ eh.defaultMessage ++ post) message) :
    (strContains (responseBody (eh.ServeError message)) message ↔
      eh.displayErrors = true) ∧
    (eh.displayErrors = false →
      responseBody (eh.ServeError message) = pre ++ eh.defaultMessage ++ post) ∧
    responseBody (eh.AlwaysServeError message) = pre ++ message ++ post ∧
    strContains (responseBody (eh.AlwaysServeError message)) message ∧
    responseStatus (eh.ServeError message) = some 500 ∧
    responseStatus (eh.AlwaysServeError message) = some 500 := by
  have hcontains : ∀ x : String, strContains (pre ++ x ++ post) x := fun x =>
    ⟨pre.data, post.data, by simp [String.data_append]⟩
  have halways : eh.AlwaysServeError message =
      [.header 500, .body (pre ++ message ++ post)] := by
    simp [ErrorHandler.AlwaysServeError, hsub ⟨message⟩]
  cases hd : eh.displayErrors with
  | true =>
    have hserve : eh.ServeError message =
        [.header 500, .body (pre ++ message ++ post)] := by
      simp [ErrorHandler.ServeError, ErrorHandler.errorData, hd, hsub ⟨message⟩]
    refine ⟨?_, ?_, ?_, ?_, ?_, ?_⟩
    · rw [hserve]
      exact ⟨fun _ => rfl, fun _ => hcontains message⟩
    · intro hf
      exact Bool.noConfusion hf
    · rw [halways]; rfl
    · rw [halways]; exact hcontains message
    · rw [hserve]; rfl
    · rw [halways]; rfl
  | false =>
    have hserve : eh.ServeError message =
        [.header 500, .body (pre ++ eh.defaultMessage ++ post)] := by
      simp [ErrorHandler.ServeError, ErrorHandler.errorData, hd,
        hsub ⟨eh.defaultMessage⟩]
    refine ⟨?_, ?_, ?_, ?_, ?_, ?_⟩
    · rw [hserve]
      exact ⟨fun hc => absurd hc hnot, fun htrue => Bool.noConfusion htrue⟩
    · intro hf
      rw [hserve]; rfl
    · rw [halways]; rfl
    · rw [halways]; exact hcontains message
    · rw [hserve]; rfl
    · rw [halways]; rfl

/-- Witness for C8 on a production-mode handler (displayErrors = false):
the caller's message is suppressed in favour of the framed default. -/
theorem errorHandler_display_policy_witness :
    (strContains (responseBody (productionErrorHandler.ServeError "Test ServeError"))
        "Test ServeError" ↔ productionErrorHandler.displayErrors = true) ∧
    (productionErrorHandler.displayErrors = false →
      responseBody (productionErrorHandler.ServeError "Test ServeError") =
        "Error: " ++ productionErrorHandler.defaultMessage ++ "!") ∧
    responseBody (productionErrorHandler.AlwaysServeError "Test ServeError") =
      "Error: " ++ "Test ServeError" ++ "!" ∧
    strContains (responseBody (productionErrorHandler.AlwaysServeError
      "Test ServeError")) "Test ServeError" ∧
    responseStatus (productionErrorHandler.ServeError "Test ServeError") = some 500 ∧
    responseStatus (productionErrorHandler.AlwaysServeError "Test ServeError") =
      some 500 :=
  errorHandler_display_policy productionErrorHandler "Test ServeError" "Error: " "!"
    (fun _ => rfl) (by decide)

/-- C9: ErrorHandler's default handler operation ServeHTTP always renders
the configured default message: for every configuration — including
displayErrors = true — it is equal to ServeError invoked on the default
message, and also to AlwaysServeError invoked on the default message. -/
theorem errorHandler_serveHTTP_default (eh : ErrorHandler) (r : Request) :
    eh.ServeHTTP r = eh.ServeError eh.defaultMessage ∧
    eh.ServeHTTP r = eh.AlwaysServeError eh.defaultMessage := by
  constructor <;>
  · cases hd : eh.displayErrors <;>
      simp [ErrorHandler.ServeHTTP, ErrorHandler.ServeError,
        ErrorHandler.AlwaysServeError, ErrorHandler.errorData, hd]

/-- C10 counterexample: a resolved target that stats successfully but as
neither a directory nor a regular file (a special file) falls through both
branches of the switch: the response is left entirely unwritten. -/
theorem stat_success_other_mode_unhandled :
    specialFS.stat (sampleFileHandler.resolveTarget "/test/special") = .ok .other ∧
    sampleFileHandler.ServeHTTP specialFS ⟨"/test/special"⟩ = [] ∧
    responseStatus (sampleFileHandler.ServeHTTP specialFS ⟨"/test/special"⟩) =
      none := by
  decide

/-- C10 amended: for every request whose resolved target stats
successfully, a directory classification produces exactly the
directory-redirect branch, a regular-file classification produces exactly
the file-serve branch, and any other mode falls through both branches,
writing nothing. -/
theorem stat_success_branch_classification
    (h : FileHandler) (fs : FileSystem) (r : Request) (m : FileMode)
    (hstat : fs.stat (h.resolveTarget r.path) = .ok m) :
    (m = .dir → h.ServeHTTP fs r = httpRedirect (r.path ++ "/") 302) ∧
    (m = .regular → h.ServeHTTP fs r = httpServeFile fs r (h.resolveTarget r.path)) ∧
    (m = .other → h.ServeHTTP fs r = []) := by
  refine ⟨?_, ?_, ?_⟩ <;> intro hm <;> subst hm <;>
    simp [FileHandler.ServeHTTP, hstat]

/-- Witness for the amended C10 at a directory target. -/
theorem stat_success_branch_classification_witness :
    (FileMode.dir = .dir →
      sampleFileHandler.ServeHTTP sampleFS ⟨"/test"⟩ =
        httpRedirect ("/test" ++ "/") 302) ∧
    (FileMode.dir = .regular →
      sampleFileHandler.ServeHTTP sampleFS ⟨"/test"⟩ =
        httpServeFile sampleFS ⟨"/test"⟩ (sampleFileHandler.resolveTarget "/test")) ∧
    (FileMode.dir = .other →
      sampleFileHandler.ServeHTTP sampleFS ⟨"/test"⟩ = []) :=
  stat_success_branch_classification sampleFileHandler sampleFS ⟨"/test"⟩ .dir
    (by decide)
